import Mathlib

/-
Verification of the drag/clamp/session engine of `@svelte-put/movable`
(src/packages/actions/movable/src/movable.ts), shallowly embedded in Lean.

Pixel coordinates are modelled as rationals.  A node's live bounding box
(`getBoundingClientRect`) is kept in the move state as `boxTop`, `boxLeft`,
`boxWidth`, `boxHeight`; `bottom` and `right` of the DOM rect are
`boxTop + boxHeight` and `boxLeft + boxWidth`.  Because the node is positioned
with a relative/absolute/fixed scheme, a change to `style.top`/`style.left`
shifts the live box by exactly the same amount; the state-update rule below
encodes that environment coupling.
-/

/-- Unit of a normalized limit axis (`movable.ts` lines 140-157: the `switch`
on `normalizedDelta.x.unit` / `normalizedDelta.y.unit` handles the cases
`'%'` and `'px'`). -/
inductive LimitUnit where
  | px
  | percent
deriving DecidableEq

/-- Resolved per-axis limit, `normalizedDelta` in `movable.ts`. -/
structure NormalizedDelta where
  xUnit : LimitUnit
  xValue : ℚ
  yUnit : LimitUnit
  yValue : ℚ
deriving DecidableEq

/-- An axis-aligned rectangle, as produced by `getBoundingClientRect` or the
screen rectangle `{top: 0, bottom: innerHeight, left: 0, right: innerWidth}`
(`movable.ts` lines 160-170). -/
structure Rect where
  top : ℚ
  bottom : ℚ
  left : ℚ
  right : ℚ
deriving DecidableEq

/-- The configuration consumed by `onMouseMove`: `parent` (none = Mode B;
`some r` covers both a container element and `'screen'`, since either yields
a rectangle read on each move) and the resolved `normalizedDelta`. -/
structure MoveCfg where
  parent : Option Rect
  normalizedDelta : NormalizedDelta
deriving DecidableEq

/-- The per-instance mutable state read and written by `onMouseMove`:
`lastMousePosition`, `lastNodePosition`, the running sums of applied deltas
(`movable.ts` lines 111-114), plus the node's live bounding box. -/
structure MoveState where
  lastMouseX : ℚ
  lastMouseY : ℚ
  lastTop : ℚ
  lastLeft : ℚ
  sumDx : ℚ
  sumDy : ℚ
  boxTop : ℚ
  boxLeft : ℚ
  boxWidth : ℚ
  boxHeight : ℚ
deriving DecidableEq

/-- `movable.ts` lines 139-157: per-axis bound from a normalized limit axis;
`'%'` is interpreted against the node's own size. -/
def computeBound (u : LimitUnit) (value size : ℚ) : ℚ :=
  match u with
  | .percent => value * size / 100
  | .px => value

/-- The `boundX` computed on each move (`movable.ts` lines 139-147). -/
def boundXOf (cfg : MoveCfg) (st : MoveState) : ℚ :=
  computeBound cfg.normalizedDelta.xUnit cfg.normalizedDelta.xValue st.boxWidth

/-- The `boundY` computed on each move (`movable.ts` lines 149-157). -/
def boundYOf (cfg : MoveCfg) (st : MoveState) : ℚ :=
  computeBound cfg.normalizedDelta.yUnit cfg.normalizedDelta.yValue st.boxHeight

/-- Mode A, vertical axis (`movable.ts` lines 172-180): `newAbsTop` is
`nodeBoundingRect.top + dy + boundY`; if it is above the container top the
candidate is pushed down, otherwise `newAbsBottom` is checked against the
container bottom. -/
def modeATop (r : Rect) (boxTop boxHeight dy boundY top0 : ℚ) : ℚ :=
  let newAbsTop := boxTop + dy + boundY
  if newAbsTop < r.top then
    top0 + (r.top - newAbsTop)
  else
    let newAbsBottom := boxTop + boxHeight + dy - boundY
    if newAbsBottom > r.bottom then top0 - (newAbsBottom - r.bottom) else top0

/-- Mode A, horizontal axis (`movable.ts` lines 182-190). -/
def modeALeft (r : Rect) (boxLeft boxWidth dx boundX left0 : ℚ) : ℚ :=
  let newAbsLeft := boxLeft + dx + boundX
  if newAbsLeft < r.left then
    left0 + (r.left - newAbsLeft)
  else
    let newAbsRight := boxLeft + boxWidth + dx - boundX
    if newAbsRight > r.right then left0 - (newAbsRight - r.right) else left0

/-- Mode B, horizontal axis (`movable.ts` lines 192-199): clamp the would-be
cumulative displacement into `[-boundX, boundX]` when `boundX > 0`. -/
def modeBLeft (boundX sumDx lastLeft left0 : ℚ) : ℚ :=
  if boundX > 0 then
    let s := sumDx + left0 - lastLeft
    if s > boundX then left0 - (s - boundX)
    else if s < -boundX then left0 - (s + boundX)
    else left0
  else left0

/-- Mode B, vertical axis (`movable.ts` lines 201-208). -/
def modeBTop (boundY sumDy lastTop top0 : ℚ) : ℚ :=
  if boundY > 0 then
    let s := sumDy + top0 - lastTop
    if s > boundY then top0 - (s - boundY)
    else if s < -boundY then top0 - (s + boundY)
    else top0
  else top0

/-- One `mousemove` step (`movable.ts` lines 130-217).  The candidate
position is `lastNodePosition + delta`; Mode A or Mode B clamping is
selected by `parent`; then the style is applied (shifting the live box by
the applied displacement), the cumulative sums are bumped by the applied
displacement, and `lastNodePosition` / `lastMousePosition` are updated. -/
def onMouseMove (cfg : MoveCfg) (st : MoveState) (eventX eventY : ℚ) : MoveState :=
  let dx := eventX - st.lastMouseX
  let dy := eventY - st.lastMouseY
  let top0 := st.lastTop + dy
  let left0 := st.lastLeft + dx
  let boundX := boundXOf cfg st
  let boundY := boundYOf cfg st
  let top1 :=
    match cfg.parent with
    | some r => modeATop r st.boxTop st.boxHeight dy boundY top0
    | none => modeBTop boundY st.sumDy st.lastTop top0
  let left1 :=
    match cfg.parent with
    | some r => modeALeft r st.boxLeft st.boxWidth dx boundX left0
    | none => modeBLeft boundX st.sumDx st.lastLeft left0
  { st with
    lastMouseX := eventX
    lastMouseY := eventY
    boxTop := st.boxTop + (top1 - st.lastTop)
    boxLeft := st.boxLeft + (left1 - st.lastLeft)
    sumDx := st.sumDx + (left1 - st.lastLeft)
    sumDy := st.sumDy + (top1 - st.lastTop)
    lastTop := top1
    lastLeft := left1 }

/-- Process a list of `mousemove` events in arrival order. -/
def runMoves (cfg : MoveCfg) (st : MoveState) : List (ℚ × ℚ) → MoveState
  | [] => st
  | e :: es => runMoves cfg (onMouseMove cfg st e.1 e.2) es

/-- Sanity check (spec section 8, Scenario 1): free movement with no boundary
and no limit applies the raw delta. -/
theorem scenario_free_move :
    (onMouseMove ⟨none, ⟨.px, 0, .px, 0⟩⟩ ⟨100, 100, 0, 0, 0, 0, 0, 0, 10, 10⟩
      150 120).lastLeft = 50
    ∧ (onMouseMove ⟨none, ⟨.px, 0, .px, 0⟩⟩ ⟨100, 100, 0, 0, 0, 0, 0, 0, 10, 10⟩
      150 120).lastTop = 20 := by
  constructor <;>
    norm_num [onMouseMove, modeBLeft, modeBTop, boundXOf, boundYOf, computeBound]

/-- Sanity check (spec section 8, Scenario 2): a 100 by 100 node at
(450, 450) moved by (+100, +100) in a 500 by 500 boundary with margin 0 is
clamped flush to the far edge at (400, 400). -/
theorem scenario_far_edge_clamp :
    (onMouseMove ⟨some ⟨0, 500, 0, 500⟩, ⟨.px, 0, .px, 0⟩⟩
      ⟨0, 0, 450, 450, 0, 0, 450, 450, 100, 100⟩ 100 100).lastTop = 400
    ∧ (onMouseMove ⟨some ⟨0, 500, 0, 500⟩, ⟨.px, 0, .px, 0⟩⟩
      ⟨0, 0, 450, 450, 0, 0, 450, 450, 100, 100⟩ 100 100).lastLeft = 400 := by
  constructor <;>
    norm_num [onMouseMove, modeATop, modeALeft, boundXOf, boundYOf, computeBound]

/- Helper lemmas about `onMouseMove`. -/

lemma onMouseMove_boxWidth (cfg : MoveCfg) (st : MoveState) (ex ey : ℚ) :
    (onMouseMove cfg st ex ey).boxWidth = st.boxWidth := by
  cases hp : cfg.parent <;> simp [onMouseMove, hp]

lemma onMouseMove_boxHeight (cfg : MoveCfg) (st : MoveState) (ex ey : ℚ) :
    (onMouseMove cfg st ex ey).boxHeight = st.boxHeight := by
  cases hp : cfg.parent <;> simp [onMouseMove, hp]

lemma boundXOf_onMouseMove (cfg : MoveCfg) (st : MoveState) (ex ey : ℚ) :
    boundXOf cfg (onMouseMove cfg st ex ey) = boundXOf cfg st := by
  simp [boundXOf, onMouseMove_boxWidth]

lemma boundYOf_onMouseMove (cfg : MoveCfg) (st : MoveState) (ex ey : ℚ) :
    boundYOf cfg (onMouseMove cfg st ex ey) = boundYOf cfg st := by
  simp [boundYOf, onMouseMove_boxHeight]

lemma onMouseMove_lastTop_modeA (cfg : MoveCfg) (st : MoveState) (ex ey : ℚ)
    (r : Rect) (hp : cfg.parent = some r) :
    (onMouseMove cfg st ex ey).lastTop
      = modeATop r st.boxTop st.boxHeight (ey - st.lastMouseY) (boundYOf cfg st)
          (st.lastTop + (ey - st.lastMouseY)) := by
  simp [onMouseMove, hp]

lemma onMouseMove_lastLeft_modeA (cfg : MoveCfg) (st : MoveState) (ex ey : ℚ)
    (r : Rect) (hp : cfg.parent = some r) :
    (onMouseMove cfg st ex ey).lastLeft
      = modeALeft r st.boxLeft st.boxWidth (ex - st.lastMouseX) (boundXOf cfg st)
          (st.lastLeft + (ex - st.lastMouseX)) := by
  simp [onMouseMove, hp]

lemma onMouseMove_boxTop (cfg : MoveCfg) (st : MoveState) (ex ey : ℚ) :
    (onMouseMove cfg st ex ey).boxTop
      = st.boxTop + ((onMouseMove cfg st ex ey).lastTop - st.lastTop) := by
  cases hp : cfg.parent <;> simp [onMouseMove, hp]

lemma onMouseMove_boxLeft (cfg : MoveCfg) (st : MoveState) (ex ey : ℚ) :
    (onMouseMove cfg st ex ey).boxLeft
      = st.boxLeft + ((onMouseMove cfg st ex ey).lastLeft - st.lastLeft) := by
  cases hp : cfg.parent <;> simp [onMouseMove, hp]

/-- Claim C1 (amended): in Mode A, if the node fits inside the boundary region
extended by the per-axis margins, then after any single move with an arbitrary
delta the node's clamped bounding box lies within `boundary ± margin` on every
axis. -/
theorem modeA_box_within_extended (cfg : MoveCfg) (st : MoveState) (eventX eventY : ℚ)
    (r : Rect) (hp : cfg.parent = some r)
    (hfitY : st.boxHeight ≤ (r.bottom - r.top) + 2 * boundYOf cfg st)
    (hfitX : st.boxWidth ≤ (r.right - r.left) + 2 * boundXOf cfg st) :
    r.top - boundYOf cfg st ≤ (onMouseMove cfg st eventX eventY).boxTop
    ∧ (onMouseMove cfg st eventX eventY).boxTop + (onMouseMove cfg st eventX eventY).boxHeight
        ≤ r.bottom + boundYOf cfg st
    ∧ r.left - boundXOf cfg st ≤ (onMouseMove cfg st eventX eventY).boxLeft
    ∧ (onMouseMove cfg st eventX eventY).boxLeft + (onMouseMove cfg st eventX eventY).boxWidth
        ≤ r.right + boundXOf cfg st := by
  have hT := onMouseMove_lastTop_modeA cfg st eventX eventY r hp
  have hL := onMouseMove_lastLeft_modeA cfg st eventX eventY r hp
  have hbT := onMouseMove_boxTop cfg st eventX eventY
  have hbL := onMouseMove_boxLeft cfg st eventX eventY
  have hbH := onMouseMove_boxHeight cfg st eventX eventY
  have hbW := onMouseMove_boxWidth cfg st eventX eventY
  rw [hT] at hbT
  rw [hL] at hbL
  refine ⟨?_, ?_, ?_, ?_⟩
  · rw [hbT]
    simp only [modeATop]
    split_ifs with h1 h2 <;> linarith
  · rw [hbT, hbH]
    simp only [modeATop]
    split_ifs with h1 h2 <;> linarith
  · rw [hbL]
    simp only [modeALeft]
    split_ifs with h1 h2 <;> linarith
  · rw [hbL, hbW]
    simp only [modeALeft]
    split_ifs with h1 h2 <;> linarith

def cfgA2 : MoveCfg := ⟨some ⟨0, 500, 0, 500⟩, ⟨.px, 0, .px, 0⟩⟩

def stA2 : MoveState := ⟨0, 0, 450, 450, 0, 0, 450, 450, 100, 100⟩

/-- Witness for C1's amended theorem: the 100×100 node at (450, 450) dragged by
(+100, +100) inside the 500×500 boundary ends flush against the far edges. -/
theorem modeA_box_within_extended_witness :
    (stA2.boxHeight ≤ ((500 : ℚ) - 0) + 2 * boundYOf cfgA2 stA2)
    ∧ ((0 : ℚ) - boundYOf cfgA2 stA2 ≤ (onMouseMove cfgA2 stA2 100 100).boxTop
        ∧ (onMouseMove cfgA2 stA2 100 100).boxTop + (onMouseMove cfgA2 stA2 100 100).boxHeight
            ≤ (500 : ℚ) + boundYOf cfgA2 stA2) := by
  have h := modeA_box_within_extended cfgA2 stA2 100 100 ⟨0, 500, 0, 500⟩ rfl
      (by norm_num [stA2, boundYOf, cfgA2, computeBound])
      (by norm_num [stA2, boundXOf, cfgA2, computeBound])
  exact ⟨by norm_num [stA2, boundYOf, cfgA2, computeBound], h.1, h.2.1⟩

def cfgC1x : MoveCfg := ⟨some ⟨0, 10, 0, 10⟩, ⟨.px, 0, .px, 0⟩⟩

def stC1x : MoveState := ⟨0, 0, 0, 0, 0, 0, -50, 0, 10, 100⟩

/-- Counterexample to C1 as stated: a node taller than the boundary region
(height 100 versus region height 10, margins 0), hit by a large upward delta,
is pushed flush to the near edge and its bounding box then overflows the far
edge, so the box does not lie within `boundary ± margin`. -/
theorem modeA_escape_counterexample :
    cfgC1x.parent = some ⟨0, 10, 0, 10⟩
    ∧ ¬ ((onMouseMove cfgC1x stC1x 0 (-100)).boxTop
          + (onMouseMove cfgC1x stC1x 0 (-100)).boxHeight
        ≤ (⟨0, 10, 0, 10⟩ : Rect).bottom + boundYOf cfgC1x stC1x) := by
  refine ⟨rfl, ?_⟩
  norm_num [onMouseMove, modeATop, modeALeft, boundXOf, boundYOf, computeBound,
    cfgC1x, stC1x]

lemma onMouseMove_sumDx_modeB (cfg : MoveCfg) (st : MoveState) (ex ey : ℚ)
    (hp : cfg.parent = none) :
    (onMouseMove cfg st ex ey).sumDx
      = st.sumDx + (modeBLeft (boundXOf cfg st) st.sumDx st.lastLeft
          (st.lastLeft + (ex - st.lastMouseX)) - st.lastLeft) := by
  simp [onMouseMove, hp]

lemma onMouseMove_sumDy_modeB (cfg : MoveCfg) (st : MoveState) (ex ey : ℚ)
    (hp : cfg.parent = none) :
    (onMouseMove cfg st ex ey).sumDy
      = st.sumDy + (modeBTop (boundYOf cfg st) st.sumDy st.lastTop
          (st.lastTop + (ey - st.lastMouseY)) - st.lastTop) := by
  simp [onMouseMove, hp]

lemma modeB_step_abs_sumDx (cfg : MoveCfg) (st : MoveState) (ex ey : ℚ)
    (hp : cfg.parent = none) (hx : 0 < boundXOf cfg st)
    (h : |st.sumDx| ≤ boundXOf cfg st) :
    |(onMouseMove cfg st ex ey).sumDx| ≤ boundXOf cfg st := by
  rw [onMouseMove_sumDx_modeB cfg st ex ey hp]
  rw [abs_le] at h ⊢
  simp only [modeBLeft]
  split_ifs <;> constructor <;> linarith

lemma modeB_step_abs_sumDy (cfg : MoveCfg) (st : MoveState) (ex ey : ℚ)
    (hp : cfg.parent = none) (hy : 0 < boundYOf cfg st)
    (h : |st.sumDy| ≤ boundYOf cfg st) :
    |(onMouseMove cfg st ex ey).sumDy| ≤ boundYOf cfg st := by
  rw [onMouseMove_sumDy_modeB cfg st ex ey hp]
  rw [abs_le] at h ⊢
  simp only [modeBTop]
  split_ifs <;> constructor <;> linarith

lemma runMoves_abs_inv (cfg : MoveCfg) (evs : List (ℚ × ℚ)) : ∀ st : MoveState,
    cfg.parent = none → 0 < boundXOf cfg st → 0 < boundYOf cfg st →
    |st.sumDx| ≤ boundXOf cfg st → |st.sumDy| ≤ boundYOf cfg st →
    |(runMoves cfg st evs).sumDx| ≤ boundXOf cfg st
    ∧ |(runMoves cfg st evs).sumDy| ≤ boundYOf cfg st := by
  induction evs with
  | nil => exact fun st hp hx hy h1 h2 => ⟨h1, h2⟩
  | cons e es ih =>
    intro st hp hx hy h1 h2
    have hbw := boundXOf_onMouseMove cfg st e.1 e.2
    have hbh := boundYOf_onMouseMove cfg st e.1 e.2
    have step := ih (onMouseMove cfg st e.1 e.2) hp (by rw [hbw]; exact hx)
      (by rw [hbh]; exact hy)
      (by rw [hbw]; exact modeB_step_abs_sumDx cfg st e.1 e.2 hp hx h1)
      (by rw [hbh]; exact modeB_step_abs_sumDy cfg st e.1 e.2 hp hy h2)
    rw [hbw, hbh] at step
    exact step

/-- Claim C2: in Mode B with strictly positive bounds, starting from zero
cumulative displacement, after any sequence of moves the cumulative signed
displacement on each axis stays within the bound in absolute value.  (Every
intermediate point of a sequence is itself the final state of its prefix, and
the event list here is arbitrary, so this covers "after every move".) -/
theorem modeB_cumulative_bounded (cfg : MoveCfg) (st : MoveState) (evs : List (ℚ × ℚ))
    (hp : cfg.parent = none) (hx : 0 < boundXOf cfg st) (hy : 0 < boundYOf cfg st)
    (h0x : st.sumDx = 0) (h0y : st.sumDy = 0) :
    |(runMoves cfg st evs).sumDx| ≤ boundXOf cfg st
    ∧ |(runMoves cfg st evs).sumDy| ≤ boundYOf cfg st := by
  refine runMoves_abs_inv cfg evs st hp hx hy ?_ ?_
  · rw [h0x]
    simpa using hx.le
  · rw [h0y]
    simpa using hy.le

def cfgB2 : MoveCfg := ⟨none, ⟨.px, 5, .px, 5⟩⟩

def stB2 : MoveState := ⟨0, 0, 0, 0, 0, 0, 0, 0, 10, 10⟩

/-- Witness for C2: a single huge move of (+100, +100) under bounds of 5px
leaves the cumulative displacement within [-5, 5] on both axes. -/
theorem modeB_cumulative_bounded_witness :
    (0 < boundXOf cfgB2 stB2 ∧ 0 < boundYOf cfgB2 stB2)
    ∧ |(runMoves cfgB2 stB2 [(100, 100)]).sumDx| ≤ boundXOf cfgB2 stB2 := by
  have hx : 0 < boundXOf cfgB2 stB2 := by
    norm_num [boundXOf, computeBound, cfgB2, stB2]
  have hy : 0 < boundYOf cfgB2 stB2 := by
    norm_num [boundYOf, computeBound, cfgB2, stB2]
  exact ⟨⟨hx, hy⟩, (modeB_cumulative_bounded cfgB2 stB2 [(100, 100)] rfl hx hy rfl rfl).1⟩

/-- Spec formula (section 4.2, Mode A, vertical axis), written from the spec
text: `newTop = nodeBox.top + dy + marginY`; if `newTop < R.top` push the
candidate down by the shortfall, otherwise check `newBottom = nodeBox.bottom
+ dy - marginY` against `R.bottom` and pull up by the excess. -/
def specVerticalClamp (top0 nodeTop nodeBottom dy marginY rTop rBottom : ℚ) : ℚ :=
  let newTop := nodeTop + dy + marginY
  if newTop < rTop then
    top0 + (rTop - newTop)
  else
    let newBottom := nodeBottom + dy - marginY
    if newBottom > rBottom then top0 - (newBottom - rBottom) else top0

/-- Spec formula (section 4.2, Mode A, horizontal axis), symmetric to the
vertical one with left/right/marginX. -/
def specHorizontalClamp (left0 nodeLeft nodeRight dx marginX rLeft rRight : ℚ) : ℚ :=
  let newLeft := nodeLeft + dx + marginX
  if newLeft < rLeft then
    left0 + (rLeft - newLeft)
  else
    let newRight := nodeRight + dx - marginX
    if newRight > rRight then left0 - (newRight - rRight) else left0

/-- Claim C3: in Mode A the code's per-axis clamp computes exactly the spec's
piecewise formula on each axis (with `nodeBox.bottom = top + height` and
`nodeBox.right = left + width`), and the near-edge and far-edge corrections
are mutually exclusive: whenever the near-edge condition holds, the result is
the near-edge correction alone, regardless of the far-edge condition. -/
theorem modeA_clamp_formula (cfg : MoveCfg) (st : MoveState) (ex ey : ℚ)
    (r : Rect) (hp : cfg.parent = some r) :
    (onMouseMove cfg st ex ey).lastTop
      = specVerticalClamp (st.lastTop + (ey - st.lastMouseY)) st.boxTop
          (st.boxTop + st.boxHeight) (ey - st.lastMouseY) (boundYOf cfg st)
          r.top r.bottom
    ∧ (onMouseMove cfg st ex ey).lastLeft
      = specHorizontalClamp (st.lastLeft + (ex - st.lastMouseX)) st.boxLeft
          (st.boxLeft + st.boxWidth) (ex - st.lastMouseX) (boundXOf cfg st)
          r.left r.right
    ∧ (st.boxTop + (ey - st.lastMouseY) + boundYOf cfg st < r.top →
        (onMouseMove cfg st ex ey).lastTop
          = st.lastTop + (ey - st.lastMouseY)
            + (r.top - (st.boxTop + (ey - st.lastMouseY) + boundYOf cfg st))) := by
  refine ⟨?_, ?_, ?_⟩
  · rw [onMouseMove_lastTop_modeA cfg st ex ey r hp]
    rfl
  · rw [onMouseMove_lastLeft_modeA cfg st ex ey r hp]
    rfl
  · intro hnear
    rw [onMouseMove_lastTop_modeA cfg st ex ey r hp]
    simp only [modeATop]
    rw [if_pos hnear]

def cfgA3 : MoveCfg := ⟨some ⟨0, 300, 0, 300⟩, ⟨.px, 10, .px, 10⟩⟩

def stA3 : MoveState := ⟨0, 0, 20, 20, 0, 0, 20, 20, 50, 50⟩

/-- Witness for C3, applying the refinement theorem at a concrete Mode-A
configuration and move. -/
theorem modeA_clamp_formula_witness :
    cfgA3.parent = some ⟨0, 300, 0, 300⟩
    ∧ (onMouseMove cfgA3 stA3 5 7).lastTop
        = specVerticalClamp (stA3.lastTop + (7 - stA3.lastMouseY)) stA3.boxTop
            (stA3.boxTop + stA3.boxHeight) (7 - stA3.lastMouseY) (boundYOf cfgA3 stA3)
            (⟨0, 300, 0, 300⟩ : Rect).top (⟨0, 300, 0, 300⟩ : Rect).bottom :=
  ⟨rfl, (modeA_clamp_formula cfgA3 stA3 5 7 ⟨0, 300, 0, 300⟩ rfl).1⟩

/-- Claim C6 (amended): with a boundary configured, Mode-B cumulative
clamping is never applied — the clamped position is independent of the
cumulative state — but a Mode-A move still updates the cumulative dx/dy by
the applied displacement (the sums are maintained, merely never read). -/
theorem modeA_cumulative_independent (cfg : MoveCfg) (st : MoveState) (ex ey a b : ℚ)
    (r : Rect) (hp : cfg.parent = some r) :
    ((onMouseMove cfg { st with sumDx := a, sumDy := b } ex ey).lastTop
        = (onMouseMove cfg st ex ey).lastTop
      ∧ (onMouseMove cfg { st with sumDx := a, sumDy := b } ex ey).lastLeft
        = (onMouseMove cfg st ex ey).lastLeft)
    ∧ (onMouseMove cfg st ex ey).sumDx
        = st.sumDx + ((onMouseMove cfg st ex ey).lastLeft - st.lastLeft)
    ∧ (onMouseMove cfg st ex ey).sumDy
        = st.sumDy + ((onMouseMove cfg st ex ey).lastTop - st.lastTop) := by
  refine ⟨⟨?_, ?_⟩, ?_, ?_⟩ <;>
    simp [onMouseMove, hp, boundXOf, boundYOf]

def cfgC6x : MoveCfg := ⟨some ⟨0, 100, 0, 100⟩, ⟨.px, 0, .px, 0⟩⟩

def stC6x : MoveState := ⟨0, 0, 0, 0, 0, 0, 10, 10, 10, 10⟩

/-- Counterexample to C6 as stated: a Mode-A move (boundary configured) does
not leave the cumulative dx unchanged — the running sums are updated on every
move, Mode A included. -/
theorem modeA_updates_cumulative_counterexample :
    cfgC6x.parent ≠ none
    ∧ (onMouseMove cfgC6x stC6x 5 0).sumDx ≠ stC6x.sumDx := by
  refine ⟨by simp [cfgC6x], ?_⟩
  norm_num [onMouseMove, modeATop, modeALeft, boundXOf, boundYOf, computeBound,
    cfgC6x, stC6x]

def cfgC6w : MoveCfg := ⟨some ⟨0, 200, 0, 200⟩, ⟨.px, 0, .px, 0⟩⟩

def stC6w : MoveState := ⟨0, 0, 0, 0, 0, 0, 20, 20, 10, 10⟩

/-- Witness for C6's amended theorem at a concrete Mode-A configuration. -/
theorem modeA_cumulative_independent_witness :
    ((onMouseMove cfgC6w { stC6w with sumDx := 7, sumDy := 9 } 3 4).lastTop
        = (onMouseMove cfgC6w stC6w 3 4).lastTop
      ∧ (onMouseMove cfgC6w { stC6w with sumDx := 7, sumDy := 9 } 3 4).lastLeft
        = (onMouseMove cfgC6w stC6w 3 4).lastLeft)
    ∧ (onMouseMove cfgC6w stC6w 3 4).sumDx
        = stC6w.sumDx + ((onMouseMove cfgC6w stC6w 3 4).lastLeft - stC6w.lastLeft)
    ∧ (onMouseMove cfgC6w stC6w 3 4).sumDy
        = stC6w.sumDy + ((onMouseMove cfgC6w stC6w 3 4).lastTop - stC6w.lastTop) :=
  modeA_cumulative_independent cfgC6w stC6w 3 4 7 9 ⟨0, 200, 0, 200⟩ rfl

/-
Session model: `onMouseDown` (movable.ts lines 234-266), `end` (lines
219-232) and the DOM listener plumbing.  Elements are identified by natural
numbers; `isSameNode` is identity of those identifiers.  Inline styles are
strings, with the empty string meaning "no inline value" (what
`removeProperty` leaves behind).  Dispatching a signal runs the handler only
if the corresponding listener is currently registered.
-/

/-- The notifications dispatched by the action (`movablestart` at line 249,
`movableend` at line 231). -/
inductive MovableEvt where
  | movablestart
  | movableend
deriving DecidableEq

/-- Global and handle inline styles touched by the drag session. -/
structure GlobalStyles where
  bodyUserSelect : String
  bodyCursor : String
  handleCursor : String
deriving DecidableEq

/-- The configuration consumed by the session handlers: `enabled`, `cursor`,
the `ignore` selector, and the descendants of the resolved handle over which
`querySelectorAll(ignore)` ranges (in document order). -/
structure SessionCfg where
  enabled : Bool
  cursor : Bool
  ignore : Option (ℕ → Bool)
  handleDescendants : List ℕ

/-- `getIgnoredElements` (movable.ts lines 116-118):
`ignore ? Array.from(handle.querySelectorAll(ignore)) : []`. -/
def getIgnoredElements (cfg : SessionCfg) : List ℕ :=
  match cfg.ignore with
  | some sel => cfg.handleDescendants.filter sel
  | none => []

/-- A `mousedown` event: its target plus the environment values read by the
handler (client coordinates, the element's parsed `left`/`top` computed
styles with unparseable values already defaulted to 0, and its computed
`position`). -/
structure PressEvent where
  target : ℕ
  clientX : ℚ
  clientY : ℚ
  parsedLeft : ℚ
  parsedTop : ℚ
  computedPosition : String
deriving DecidableEq

/-- Session state: styles, the node's `position` style, which listeners are
registered (press on the handle, move/up on the window), the last node and
mouse positions, and the log of dispatched notifications. -/
structure SessionState where
  styles : GlobalStyles
  positionStyle : String
  pressListener : Bool
  moveListener : Bool
  upListener : Bool
  lastTop : ℚ
  lastLeft : ℚ
  lastMouseX : ℚ
  lastMouseY : ℚ
  events : List MovableEvt
deriving DecidableEq

/-- `onMouseDown` (movable.ts lines 234-266): return early if the target is
one of the ignored elements; otherwise record the parsed position, dispatch
`movablestart`, force a relative positioning scheme when needed, record the
mouse position, suppress text selection, set the grabbing cursors when
`cursor` is enabled, and install the window move/up listeners. -/
def onMouseDown (cfg : SessionCfg) (s : SessionState) (e : PressEvent) : SessionState :=
  if (getIgnoredElements cfg).any (fun n => n == e.target) then s
  else
    let s1 := { s with lastTop := e.parsedTop, lastLeft := e.parsedLeft }
    let s2 := { s1 with events := s1.events ++ [MovableEvt.movablestart] }
    let s3 :=
      if e.computedPosition != "relative" && e.computedPosition != "absolute"
          && e.computedPosition != "fixed" then
        { s2 with positionStyle := "relative" }
      else s2
    let s4 := { s3 with lastMouseX := e.clientX, lastMouseY := e.clientY }
    let s5 := { s4 with styles := { s4.styles with bodyUserSelect := "none" } }
    let s6 :=
      if cfg.cursor then
        { s5 with styles :=
            { s5.styles with bodyCursor := "grabbing", handleCursor := "grabbing" } }
      else s5
    { s6 with moveListener := true, upListener := true }

/-- `end` (movable.ts lines 219-232): clear the body text-selection
suppression, clear the body cursor only if it still reads `grabbing`, reset
the handle cursor to `grab` (when `cursor` is enabled), remove the window
listeners and dispatch `movableend`. -/
def endDrag (cfg : SessionCfg) (s : SessionState) : SessionState :=
  let s1 := { s with styles := { s.styles with bodyUserSelect := "" } }
  let s2 :=
    if cfg.cursor then
      let s15 :=
        if s1.styles.bodyCursor == "grabbing" then
          { s1 with styles := { s1.styles with bodyCursor := "" } }
        else s1
      { s15 with styles := { s15.styles with handleCursor := "grab" } }
    else s1
  { s2 with moveListener := false, upListener := false,
            events := s2.events ++ [MovableEvt.movableend] }

/-- Deliver a `mousedown` signal: the handler runs only while the press
listener is registered on the handle. -/
def dispatchPress (cfg : SessionCfg) (s : SessionState) (e : PressEvent) : SessionState :=
  if s.pressListener then onMouseDown cfg s e else s

/-- Deliver a `mouseup` signal: the handler runs only while the window
`mouseup` listener is registered (it is removed by `end` itself). -/
def dispatchRelease (cfg : SessionCfg) (s : SessionState) : SessionState :=
  if s.upListener then endDrag cfg s else s

/-- The session state right after attach (movable.ts lines 293-298): the
press listener is installed exactly when `enabled`, no window listeners, no
notifications yet. -/
def initialSession (cfg : SessionCfg) (g : GlobalStyles) (posStyle : String) :
    SessionState :=
  { styles := g, positionStyle := posStyle, pressListener := cfg.enabled,
    moveListener := false, upListener := false,
    lastTop := 0, lastLeft := 0, lastMouseX := 0, lastMouseY := 0, events := [] }

/-- Claim C5: release handling is idempotent.  The `end` handler removes the
window `mouseup` listener as part of running, so delivering a second release
signal is a no-op (the second conjunct), and any release delivered while the
session is already idle (no `mouseup` listener registered) changes no state
and emits no notification (the first conjunct). -/
theorem duplicate_release_noop (cfg : SessionCfg) (s : SessionState) :
    (s.upListener = false → dispatchRelease cfg s = s)
    ∧ dispatchRelease cfg (dispatchRelease cfg s) = dispatchRelease cfg s := by
  have hend : ∀ t : SessionState, (endDrag cfg t).upListener = false := fun t => rfl
  constructor
  · intro h
    simp [dispatchRelease, h]
  · by_cases h : s.upListener
    · simp [dispatchRelease, h, hend]
    · simp [dispatchRelease, h]

def cfg5w : SessionCfg := ⟨true, true, none, []⟩

def sess5w : SessionState := ⟨⟨"", "", ""⟩, "static", true, false, false, 0, 0, 0, 0, []⟩

/-- Witness for C5 at a concrete idle session state. -/
theorem duplicate_release_noop_witness :
    sess5w.upListener = false ∧ dispatchRelease cfg5w sess5w = sess5w :=
  ⟨rfl, (duplicate_release_noop cfg5w sess5w).1 rfl⟩

/-- Claim C4 (amended): after a press→release cycle the body's text-selection
suppression, the body cursor and the handle cursor equal their pre-press
values, provided the pre-press values were the idle defaults: no inline
`userSelect` on the body, and (when the cursor indicators are enabled) no
inline body cursor and the idle `grab` indicator on the handle.  The code
restores by writing fixed values (`''` and `'grab'`), not by saving the prior
state, so other pre-press values are not recovered. -/
theorem press_release_restores_styles (cfg : SessionCfg) (g : GlobalStyles)
    (p : String) (e : PressEvent)
    (hsel : g.bodyUserSelect = "")
    (hcur : cfg.cursor = true → g.bodyCursor = "" ∧ g.handleCursor = "grab") :
    (dispatchRelease cfg (dispatchPress cfg (initialSession cfg g p) e)).styles = g := by
  obtain ⟨gu, gb, gh⟩ := g
  simp only at hsel
  subst hsel
  by_cases hen : cfg.enabled
  · by_cases hg : (getIgnoredElements cfg).any (fun n => n == e.target)
    · simp [dispatchPress, initialSession, hen, onMouseDown, hg, dispatchRelease]
    · cases hc : cfg.cursor
      · simp [dispatchPress, initialSession, hen, onMouseDown, hg, hc, dispatchRelease,
          endDrag, apply_ite]
      · obtain ⟨h1, h2⟩ := hcur hc
        simp only at h1 h2
        subst h1
        subst h2
        simp [dispatchPress, initialSession, hen, onMouseDown, hg, hc, dispatchRelease,
          endDrag, apply_ite]
  · simp [dispatchPress, initialSession, hen, dispatchRelease]

def cfg4w : SessionCfg := ⟨true, true, none, []⟩

def g4w : GlobalStyles := ⟨"", "", "grab"⟩

def e4w : PressEvent := ⟨5, 1, 2, 0, 0, "static"⟩

/-- Witness for C4's amended theorem: from the idle defaults, a full
press→release cycle restores all three style values. -/
theorem press_release_restores_styles_witness :
    g4w.bodyUserSelect = ""
    ∧ (dispatchRelease cfg4w (dispatchPress cfg4w (initialSession cfg4w g4w "static") e4w)).styles
        = g4w :=
  ⟨rfl, press_release_restores_styles cfg4w g4w "static" e4w rfl (fun _ => ⟨rfl, rfl⟩)⟩

def cfg4x : SessionCfg := ⟨true, true, none, []⟩

def g4x : GlobalStyles := ⟨"text", "", "grab"⟩

def e4x : PressEvent := ⟨5, 1, 2, 0, 0, "static"⟩

/-- Counterexample to C4 as stated: if the body carried an inline
`userSelect: text` before the press, the cycle ends with the suppression
cleared to the empty string, not restored to `text` — the side effects do not
equal the pre-press values "whatever those pre-press values were". -/
theorem styles_not_restored_counterexample :
    (dispatchRelease cfg4x (dispatchPress cfg4x (initialSession cfg4x g4x "static") e4x)).styles
      ≠ g4x := by
  decide

lemma onMouseDown_skip (cfg : SessionCfg) (s : SessionState) (e : PressEvent)
    (hg : (getIgnoredElements cfg).any (fun n => n == e.target) = true) :
    onMouseDown cfg s e = s := by
  simp [onMouseDown, hg]

lemma onMouseDown_events (cfg : SessionCfg) (s : SessionState) (e : PressEvent)
    (hg : (getIgnoredElements cfg).any (fun n => n == e.target) = false) :
    (onMouseDown cfg s e).events = s.events ++ [MovableEvt.movablestart] := by
  simp only [onMouseDown, hg, Bool.false_eq_true, if_false]
  cases hc : cfg.cursor <;>
    cases hpos : (e.computedPosition != "relative" && e.computedPosition != "absolute"
      && e.computedPosition != "fixed") <;>
    simp [hc, hpos]

lemma onMouseDown_upListener (cfg : SessionCfg) (s : SessionState) (e : PressEvent)
    (hg : (getIgnoredElements cfg).any (fun n => n == e.target) = false) :
    (onMouseDown cfg s e).upListener = true := by
  simp only [onMouseDown, hg, Bool.false_eq_true, if_false]

lemma endDrag_events (cfg : SessionCfg) (s : SessionState) :
    (endDrag cfg s).events = s.events ++ [MovableEvt.movableend] := by
  simp only [endDrag]
  cases hc : cfg.cursor <;>
    cases hb : (s.styles.bodyCursor == "grabbing") <;>
    simp [hc, hb]


/-- Claim C8: from a freshly attached idle state, a press on an ignored
element changes nothing (so neither notification fires), a press while
`enabled = false` changes nothing (the press listener is not installed), and
a normal press followed by a release dispatches exactly one `movablestart`
followed by exactly one `movableend`. -/
theorem start_end_pairing (cfg : SessionCfg) (g : GlobalStyles) (p : String)
    (e : PressEvent) :
    ((getIgnoredElements cfg).any (fun n => n == e.target) = true →
      dispatchPress cfg (initialSession cfg g p) e = initialSession cfg g p)
    ∧ (cfg.enabled = false →
      dispatchPress cfg (initialSession cfg g p) e = initialSession cfg g p)
    ∧ (cfg.enabled = true →
      (getIgnoredElements cfg).any (fun n => n == e.target) = false →
      (dispatchRelease cfg (dispatchPress cfg (initialSession cfg g p) e)).events
        = [MovableEvt.movablestart, MovableEvt.movableend]) := by
  refine ⟨?_, ?_, ?_⟩
  · intro hg
    by_cases hen : cfg.enabled
    · simp [dispatchPress, initialSession, hen, onMouseDown_skip _ _ _ hg]
    · simp [dispatchPress, initialSession, hen]
  · intro hen
    simp [dispatchPress, initialSession, hen]
  · intro hen hg
    have h1 : dispatchPress cfg (initialSession cfg g p) e
        = onMouseDown cfg (initialSession cfg g p) e := by
      simp [dispatchPress, initialSession, hen]
    rw [h1]
    rw [dispatchRelease, if_pos (onMouseDown_upListener _ _ _ hg)]
    rw [endDrag_events, onMouseDown_events _ _ _ hg]
    simp [initialSession]

def cfg8w : SessionCfg := ⟨true, false, none, []⟩

def g8w : GlobalStyles := ⟨"", "", ""⟩

def e8w : PressEvent := ⟨3, 10, 10, 0, 0, "static"⟩

/-- Witness for C8: a concrete press→release cycle emits exactly
`movablestart` then `movableend`. -/
theorem start_end_pairing_witness :
    cfg8w.enabled = true
    ∧ (getIgnoredElements cfg8w).any (fun n => n == e8w.target) = false
    ∧ (dispatchRelease cfg8w (dispatchPress cfg8w (initialSession cfg8w g8w "static") e8w)).events
        = [MovableEvt.movablestart, MovableEvt.movableend] :=
  ⟨rfl, rfl, (start_end_pairing cfg8w g8w "static" e8w).2.2 rfl rfl⟩

/-- Chain of ancestors of an element under a parent map, up to a fuel bound
(a stand-in for the finite depth of the DOM tree). -/
def ancestorChain (par : ℕ → Option ℕ) : ℕ → ℕ → List ℕ
  | 0, _ => []
  | fuel + 1, a =>
    match par a with
    | some q => q :: ancestorChain par fuel q
    | none => []

/-- `b` is a proper ancestor of `a` (equivalently, `a` is a strict descendant
of `b`) within `fuel` steps of the parent map. -/
def strictDescendantOf (par : ℕ → Option ℕ) (fuel a b : ℕ) : Prop :=
  b ∈ ancestorChain par fuel a

instance (par : ℕ → Option ℕ) (fuel a b : ℕ) :
    Decidable (strictDescendantOf par fuel a b) :=
  inferInstanceAs (Decidable (b ∈ ancestorChain par fuel a))

/-- Claim C10: the ignored-element guard compares by exact node identity
against the elements matching the `ignore` selector inside the handle, so a
press on a strict descendant of a matching element that does not itself match
the selector is not blocked: the handler runs, emits `movablestart` and
installs the window listeners. -/
theorem ignored_guard_exact_identity (cfg : SessionCfg) (g : GlobalStyles)
    (p : String) (e : PressEvent) (par : ℕ → Option ℕ) (fuel m : ℕ)
    (sel : ℕ → Bool)
    (hig : cfg.ignore = some sel)
    (htarget : sel e.target = false)
    (hm : m ∈ cfg.handleDescendants) (hmsel : sel m = true)
    (hdesc : strictDescendantOf par fuel e.target m)
    (hen : cfg.enabled = true) :
    dispatchPress cfg (initialSession cfg g p) e
      = onMouseDown cfg (initialSession cfg g p) e
    ∧ (dispatchPress cfg (initialSession cfg g p) e).events = [MovableEvt.movablestart]
    ∧ (dispatchPress cfg (initialSession cfg g p) e).upListener = true := by
  have hguard : (getIgnoredElements cfg).any (fun n => n == e.target) = false := by
    simp only [getIgnoredElements, hig]
    rw [List.any_eq_false]
    intro x hx
    rw [List.mem_filter] at hx
    simp only [beq_iff_eq]
    intro hxe
    rw [hxe] at hx
    rw [htarget] at hx
    exact Bool.false_ne_true hx.2
  have h1 : dispatchPress cfg (initialSession cfg g p) e
      = onMouseDown cfg (initialSession cfg g p) e := by
    simp [dispatchPress, initialSession, hen]
  refine ⟨h1, ?_, ?_⟩
  · rw [h1, onMouseDown_events _ _ _ hguard]
    simp [initialSession]
  · rw [h1]
    exact onMouseDown_upListener _ _ _ hguard

def par10w : ℕ → Option ℕ := fun n =>
  if n == 2 then some 1 else if n == 1 then some 0 else none

def sel10w : ℕ → Bool := fun n => n == 1

def cfg10w : SessionCfg := ⟨true, true, some sel10w, [1, 2]⟩

def g10w : GlobalStyles := ⟨"", "", ""⟩

def e10w : PressEvent := ⟨2, 0, 0, 0, 0, "static"⟩

/-- Witness for C10: element 2 is a strict descendant of the matching ignored
element 1 but does not itself match, and its press starts a drag session. -/
theorem ignored_guard_exact_identity_witness :
    sel10w e10w.target = false
    ∧ strictDescendantOf par10w 2 e10w.target 1
    ∧ (dispatchPress cfg10w (initialSession cfg10w g10w "static") e10w).events
        = [MovableEvt.movablestart] := by
  refine ⟨rfl, by decide, ?_⟩
  exact (ignored_guard_exact_identity cfg10w g10w "static" e10w par10w 2 1 sel10w
    rfl rfl (by decide) rfl (by decide) rfl).2.1

/-
Lifecycle model (movable.ts lines 293-316): the press-listener set across
attach and update calls while idle.  A DOM `addEventListener` with the same
callback and capture flag is deduplicated per target, so the listener set is
a list of handle identifiers with at most one registration per handle.
-/

/-- A resolved configuration as seen by the lifecycle code: whether the
behavior is enabled and which element is the resolved handle. -/
structure LCConfig where
  enabled : Bool
  handle : ℕ
deriving DecidableEq

/-- Lifecycle state: the currently resolved handle and the handles carrying a
registered press listener. -/
structure LCState where
  curHandle : ℕ
  listeners : List ℕ
deriving DecidableEq

/-- `handle.addEventListener('mousedown', onMouseDown, true)`: a duplicate
registration of the same callback on the same target is ignored. -/
def addPressListener (h : ℕ) (ls : List ℕ) : List ℕ :=
  if ls.contains h then ls else ls ++ [h]

/-- Attach (movable.ts lines 293-298): install the press listener on the
resolved handle exactly when `enabled`. -/
def attach (cfg : LCConfig) : LCState :=
  { curHandle := cfg.handle,
    listeners := if cfg.enabled then addPressListener cfg.handle [] else [] }

/-- The first half of `update` (movable.ts line 302):
`handle.removeEventListener('mousedown', onMouseDown, true)` on the previous
handle. -/
def removePhase (s : LCState) : LCState :=
  { s with listeners := s.listeners.erase s.curHandle }

/-- `update` (movable.ts lines 300-311): remove the press listener from the
previous handle, re-resolve the configuration, and reinstall the listener on
the new handle when the new configuration is enabled. -/
def updateCfg (s : LCState) (cfg : LCConfig) : LCState :=
  let s1 := removePhase s
  let s2 := { s1 with curHandle := cfg.handle }
  if cfg.enabled then { s2 with listeners := addPressListener cfg.handle s2.listeners }
  else s2

/-- A sequence of `update` calls performed while idle. -/
def runUpdates (s : LCState) : List LCConfig → LCState
  | [] => s
  | c :: cs => runUpdates (updateCfg s c) cs

/-- The listener set fully determined by one configuration. -/
def canonicalLC (cfg : LCConfig) : LCState :=
  ⟨cfg.handle, if cfg.enabled then [cfg.handle] else []⟩

lemma attach_canonical (cfg : LCConfig) : attach cfg = canonicalLC cfg := by
  cases hc : cfg.enabled <;> simp [attach, canonicalLC, addPressListener, hc]

lemma updateCfg_canonical (c c2 : LCConfig) :
    updateCfg (canonicalLC c) c2 = canonicalLC c2 := by
  cases hc : c.enabled <;> cases hc2 : c2.enabled <;>
    simp [updateCfg, canonicalLC, removePhase, addPressListener, hc, hc2]

lemma runUpdates_canonical (cfgs : List LCConfig) : ∀ c : LCConfig,
    runUpdates (canonicalLC c) cfgs = canonicalLC (cfgs.getLastD c) := by
  induction cfgs with
  | nil => intro c; rfl
  | cons d ds ih =>
    intro c
    show runUpdates (updateCfg (canonicalLC c) d) ds = _
    rw [updateCfg_canonical, ih d, List.getLastD_cons]

/-- Claim C7: starting from attach and across any sequence of idle updates,
the press-listener set always has at most one element (also at the
mid-update point, right after the removal phase), and after the updates it is
exactly one listener on the latest resolved handle when the latest
configuration is enabled, and empty otherwise. -/
theorem listener_uniqueness (cfg0 : LCConfig) (cfgs : List LCConfig) :
    (runUpdates (attach cfg0) cfgs).listeners
        = (if (cfgs.getLastD cfg0).enabled then [(cfgs.getLastD cfg0).handle] else [])
    ∧ (runUpdates (attach cfg0) cfgs).curHandle = (cfgs.getLastD cfg0).handle
    ∧ (runUpdates (attach cfg0) cfgs).listeners.length ≤ 1
    ∧ (removePhase (runUpdates (attach cfg0) cfgs)).listeners.length ≤ 1 := by
  rw [attach_canonical, runUpdates_canonical]
  refine ⟨rfl, rfl, ?_, ?_⟩
  · cases h : (cfgs.getLastD cfg0).enabled <;> simp only [canonicalLC, h] <;> simp
  · cases h : (cfgs.getLastD cfg0).enabled <;>
      simp only [canonicalLC, removePhase, h] <;> simp

/-
Cursor mount/unmount model (movable.ts lines 268-291): the handle's inline
cursor and the inline cursors of the elements the `ignore` selector matches,
as an association list keyed by element identity (each DOM element appears
once).  The empty string is "no inline cursor" — the falsy value tested by
`!e.style.cursor` and the value left behind by `removeProperty`.
-/

/-- Handle cursor plus the inline cursors of candidate descendant elements. -/
structure CursorState where
  handleCursor : String
  elemCursors : List (ℕ × String)
deriving DecidableEq

/-- `addCursor` (movable.ts lines 268-278): when `cursor` is enabled, set the
handle's idle `grab` indicator and give every ignored element without an
inline cursor the default `auto`. -/
def addCursor (cfg : SessionCfg) (cs : CursorState) : CursorState :=
  if cfg.cursor then
    { handleCursor := "grab",
      elemCursors := cs.elemCursors.map (fun q =>
        if (getIgnoredElements cfg).contains q.1 && q.2 == "" then (q.1, "auto") else q) }
  else cs

/-- `removeCursor` (movable.ts lines 279-291): when `cursor` is enabled,
clear the handle's cursor only if it currently reads `grab`, and clear an
ignored element's cursor only if it currently reads `auto`. -/
def removeCursor (cfg : SessionCfg) (cs : CursorState) : CursorState :=
  if cfg.cursor then
    { handleCursor := if cs.handleCursor == "grab" then "" else cs.handleCursor,
      elemCursors := cs.elemCursors.map (fun q =>
        if (getIgnoredElements cfg).contains q.1 && q.2 == "auto" then (q.1, "") else q) }
  else cs

lemma elem_cursor_roundtrip (ig : List ℕ) (l : List (ℕ × String))
    (h : ∀ q ∈ l, q.1 ∈ ig → q.2 ≠ "auto") :
    (l.map (fun q => if ig.contains q.1 && q.2 == "" then (q.1, "auto") else q)).map
        (fun q => if ig.contains q.1 && q.2 == "auto" then (q.1, "") else q) = l := by
  induction l with
  | nil => rfl
  | cons a l ih =>
    obtain ⟨a1, a2⟩ := a
    have hl : ∀ q ∈ l, q.1 ∈ ig → q.2 ≠ "auto" := fun q hq => h q (by simp [hq])
    simp only [List.map_cons]
    rw [ih hl]
    congr 1
    by_cases hc1 : a1 ∈ ig
    · have ha : a2 ≠ "auto" := by simpa using h (a1, a2) (by simp) hc1
      by_cases hc2 : a2 = ""
      · subst hc2
        simp [hc1]
      · simp [hc1, hc2, ha]
    · simp [hc1]

/-- Claim C9 (amended): the unmount-time revert undoes exactly the mount-time
cursor modifications provided the pre-mount values are distinguishable from
the sentinels the code writes: the handle carries no pre-mount inline cursor
and no ignored element's pre-mount inline cursor equals `auto`.  The code
identifies its own modifications by value (`grab` on the handle, `auto` on
ignored elements), not by tracking which elements it changed, so pre-mount
values colliding with those sentinels are clobbered. -/
theorem cursor_mount_unmount_revert (cfg : SessionCfg) (cs : CursorState)
    (h1 : cs.handleCursor = "")
    (h2 : ∀ q ∈ cs.elemCursors, q.1 ∈ getIgnoredElements cfg → q.2 ≠ "auto") :
    removeCursor cfg (addCursor cfg cs) = cs := by
  cases cs with
  | mk ch ce =>
    simp only at h1 h2
    subst h1
    cases hc : cfg.cursor
    · simp [addCursor, removeCursor, hc]
    · simp only [addCursor, removeCursor, hc, if_true]
      rw [elem_cursor_roundtrip (getIgnoredElements cfg) ce h2]
      simp

def cfg9w : SessionCfg := ⟨true, true, some (fun n => n == 1), [1, 2]⟩

def cs9w : CursorState := ⟨"", [(1, ""), (2, "auto")]⟩

/-- Witness for C9's amended theorem: mount then unmount restores a state
whose ignored-descendant pre-mount cursors avoid the sentinel value; the
non-ignored element 2 may carry `auto`, since the revert only touches
elements matched by the `ignore` selector. -/
theorem cursor_mount_unmount_revert_witness :
    cs9w.handleCursor = "" ∧ removeCursor cfg9w (addCursor cfg9w cs9w) = cs9w :=
  ⟨rfl, cursor_mount_unmount_revert cfg9w cs9w rfl (by decide)⟩

def cfg9x : SessionCfg := ⟨true, true, some (fun _ => true), [1]⟩

def cs9x : CursorState := ⟨"", [(1, "auto")]⟩

/-- Counterexample to C9 as stated: an ignored element whose inline cursor
was independently set to `auto` before mount is not modified by `addCursor`
(the value is truthy), yet `removeCursor` clears it — the unmount revert
clears a value this instance never set. -/
theorem cursor_revert_counterexample :
    removeCursor cfg9x (addCursor cfg9x cs9x) ≠ cs9x := by
  decide
